import Mathlib

/-!
Tiny-OS: verification of the memory and threading core.

Shallow embedding of the Tiny-OS kernel sources (`src/mm/pmm.c`,
`src/mm/vmm.c`, `src/mm/malloc.c`, `src/threads/synch.c`,
`src/threads/thread.c`) together with proofs and refutations of the
specification's claims about them.

Conventions of the embedding:

* Machine integers are `Nat` with explicit reductions `% 2^w` where the C
  width matters.  The bitmap macros in `pmm.c` are written over plain `int`
  (32-bit) operands, so they are modelled with 32-bit arithmetic: the shift
  `1 << n` of a 32-bit operand takes the shift amount modulo 32 (RV64
  `sllw` semantics, which is what the compiler emits for the int-typed
  expression), and conversion of the signed 32-bit result to `uint64_t`
  sign-extends.
* Heap bytes are modelled by `Mem : Nat → Nat` (byte address → byte value),
  addresses being offsets from the allocator's page-aligned `base_ptr`
  (so `base_ptr` itself is address `0`; every quantity the code computes
  is a difference against `base_ptr`, so this is exact).  RAM is zero at
  boot.  The intrusive `list_node_t` bytes of a block header are not
  mirrored into `Mem`; every 8-byte header load evaluated by the theorems
  below reads bytes that were either explicitly stored or zeroed by
  `bzero` after the last list operation on that block, where the two
  representations agree.
* The bucket array of `pmm.c` has `BUCKET_COUNT = 9` entries; the model
  keeps it as a `List (List Nat)` of length 9 holding block byte
  addresses, and records every list operation the code performs in a log
  (`ListEvent`), including the bucket index used, so that an access with
  an out-of-range index is observable.  `list_delete` in `list.c` first
  runs the always-active `assert(... && list->size > 0 && ...)`, whose
  failure is a terminal `kernel_panic`; the model returns `none` in that
  case.  When the assert passes, the unlink goes through the node's own
  `prev`/`next` pointers: for a member of the named bucket this is
  exactly list erasure; for a non-member (which the code cannot
  distinguish) the two stores go through whatever the node bytes hold
  and the bucket's `size` counter is decremented without the list
  changing.  The model performs the erasure (a no-op for a non-member)
  and flags the member-ness in the log; the C `size` counter equals the
  modelled list length as long as every delete so far removed a member,
  which holds at every point the theorems below evaluate (the single
  non-member delete in the C2 trace is the last operation on that bucket
  that the trace observes, and its stores land inside the freed block's
  own pages).
-/

namespace TinyOS

/-! ## C integer helpers (32-bit `int` arithmetic of the bitmap macros) -/

/-- Model of `PAGE_SHIFT` from `include/mm/pmm.h`. -/
def PAGE_SHIFT : Nat := 12

/-- Model of `PAGE_SIZE = 1 << PAGE_SHIFT` from `include/mm/pmm.h`. -/
def PAGE_SIZE : Nat := 1 <<< PAGE_SHIFT

/-- Model of `BUCKET_COUNT` from `src/mm/pmm.c`: nine buckets, orders 0..8. -/
def BUCKET_COUNT : Nat := 9

/-- The C expression `1 << n` where `1` has type `int` (32 bits).  On the
RV64 target the compiler emits `sllw`, which masks the shift amount to its
low five bits, so the shift amount is taken modulo 32.  The result is the
32-bit pattern of the int. -/
def shl1_int (n : Nat) : Nat := (1 <<< (n % 32)) % 2 ^ 32

/-- Conversion of a signed 32-bit pattern to `uint64_t`: sign-extension. -/
def sext32 (x : Nat) : Nat := if x < 2 ^ 31 then x else x + (2 ^ 64 - 2 ^ 32)

/-- Model of `BITMAP_MASK_GEQ(n) = (-(1 << n))` from `src/mm/pmm.c` as a 32-bit
pattern (two's-complement negation). -/
def BITMAP_MASK_GEQ (n : Nat) : Nat := (2 ^ 32 - shl1_int n) % 2 ^ 32

/-- Model of `BITMAP_MASK_LT(n) = ((1 << n) - 1)` from `src/mm/pmm.c` as a 32-bit
pattern. -/
def BITMAP_MASK_LT (n : Nat) : Nat := shl1_int n - 1

/-! ## Byte memory -/

/-- Heap byte memory: byte address (relative to `base_ptr`) to byte value.
RAM contents are zero at power-on, so the initial memory is `fun x => 0`. -/
def Mem : Type := Nat → Nat

/-- Little-endian 8-byte load, used for the `size_t order` field at the
start of a `block_t` header. -/
def load8 (m : Mem) (a : Nat) : Nat :=
  m a + (m (a + 1) <<< 8) + (m (a + 2) <<< 16) + (m (a + 3) <<< 24) +
  (m (a + 4) <<< 32) + (m (a + 5) <<< 40) + (m (a + 6) <<< 48) +
  (m (a + 7) <<< 56)

/-- Little-endian 8-byte store. -/
def store8 (m : Mem) (a v : Nat) : Mem :=
  fun x => if a ≤ x ∧ x < a + 8 then (v >>> (8 * (x - a))) % 256 else m x

/-- Model of `bzero(ptr, n)` from `lib/string.c`: zero the bytes `[a, a + n)`. -/
def bzero (m : Mem) (a n : Nat) : Mem :=
  fun x => if a ≤ x ∧ x < a + n then 0 else m x

/-! ## Allocator state -/

/-- One bucket-list operation performed by `pmm.c` through `lib/list.c`,
with the index used into the 9-entry `buckets` array.  For `del`,
`member` records whether the node really was on that bucket's list;
`list_delete` on a non-member is undefined behaviour in the C (the unlink
writes through whatever the fabricated node's `prev`/`next` bytes hold). -/
inductive ListEvent where
  | push (idx addr : Nat)
  | pop (idx addr : Nat)
  | del (idx addr : Nat) (member : Bool)
deriving DecidableEq, Repr

/-- State of the physical memory manager (`src/mm/pmm.c`): the
`mm_bitmap` words, the nine bucket free lists (block byte addresses,
head first), the heap bytes, and the log of bucket-list operations. -/
structure PmmState where
  bitmap : List Nat
  buckets : List (List Nat)
  mem : Mem
  log : List ListEvent

/-- Read bitmap word `i` (`mm_bitmap.map[i]`). -/
def bmGet (b : List Nat) (i : Nat) : Nat := b.getD i 0

/-- Model of `ALLOCATED(p)` from `src/mm/pmm.c`:
`mm_bitmap.map[PAGE_NUM_TO_INDEX(p)] & (1 << PAGE_NUM_TO_OFFSET(p))`.
The `1 << off` operand is a 32-bit int, sign-extended on conversion. -/
def ALLOCATED (b : List Nat) (p : Nat) : Bool :=
  bmGet b (p / 64) &&& sext32 (shl1_int (p % 64)) ≠ 0

/-- Iteration core of `fillWords`, structurally recursive on the number
of words still to write. -/
def fillWordsGo (b : List Nat) (i v : Nat) : Nat → List Nat
  | 0 => b
  | n + 1 => fillWordsGo (b.set i v) (i + 1) v n

/-- The middle loop of `bitmap_alloc`/`bitmap_free`:
`while (++start_idx < end_idx) map[start_idx] = v;` writes words
`i, …, j - 1`. -/
def fillWords (b : List Nat) (i j v : Nat) : List Nat := fillWordsGo b i v (j - i)

/-- Model of `bitmap_alloc(p, size)` from `src/mm/pmm.c`. -/
def bitmap_alloc (b : List Nat) (p size : Nat) : List Nat :=
  let start_idx := p / 64
  let start_off := p % 64
  let end_idx := (p + size) / 64
  let end_off := (p + size) % 64
  if start_idx = end_idx then
    b.set start_idx
      (bmGet b start_idx ||| sext32 (BITMAP_MASK_GEQ start_off &&& BITMAP_MASK_LT end_off))
  else
    let b := b.set start_idx (bmGet b start_idx ||| sext32 (BITMAP_MASK_GEQ start_off))
    let b := fillWords b (start_idx + 1) end_idx (2 ^ 64 - 1)
    b.set end_idx (bmGet b end_idx ||| sext32 (BITMAP_MASK_LT end_off))

/-- Model of `bitmap_free(p, size)` from `src/mm/pmm.c`. -/
def bitmap_free (b : List Nat) (p size : Nat) : List Nat :=
  let start_idx := p / 64
  let start_off := p % 64
  let end_idx := (p + size) / 64
  let end_off := (p + size) % 64
  if start_idx = end_idx then
    b.set start_idx
      (bmGet b start_idx &&& sext32 (BITMAP_MASK_LT start_off ||| BITMAP_MASK_GEQ end_off))
  else
    let b := b.set start_idx (bmGet b start_idx &&& sext32 (BITMAP_MASK_LT start_off))
    let b := fillWords b (start_idx + 1) end_idx 0
    b.set end_idx (bmGet b end_idx &&& sext32 (BITMAP_MASK_GEQ end_off))

/-! ## Bucket-list operations (`lib/list.c` specialised to `buckets[i]`) -/

/-- The list stored at `buckets[i]`. -/
def bucketGet (s : PmmState) (i : Nat) : List Nat := s.buckets.getD i []

/-- Model of `list_push_head(&buckets[i], &block->list_node)`.  A `List.set` with
`i ≥ 9` leaves the modelled lists unchanged; the C write in that case is
out of the `buckets` array, which the log exposes. -/
def list_push_head (s : PmmState) (i addr : Nat) : PmmState :=
  { s with
    buckets := s.buckets.set i (addr :: bucketGet s i)
    log := s.log ++ [ListEvent.push i addr] }

/-- Model of `list_pop_head(&buckets[i])`; callers have checked `list_size != 0`. -/
def list_pop_head (s : PmmState) (i : Nat) : Option (Nat × PmmState) :=
  match bucketGet s i with
  | [] => none
  | a :: rest =>
    some (a, { s with
      buckets := s.buckets.set i rest
      log := s.log ++ [ListEvent.pop i a] })

/-- Model of `list_delete(&buckets[i], &block->list_node)` from
`lib/list.c`.  The function opens with the always-active
`assert(x != null && list != null && list->size > 0 && &list->nil != x)`;
when `buckets[i]` is empty the assert fails and the kernel panics
(terminally), modelled by `none`.  Otherwise the node is unlinked: for a
genuine member of `buckets[i]` this removes it; for a non-member the two
unlink stores go through the fabricated node's own pointer bytes and
`list->size` is decremented while the list is unchanged, which the log
records via `member := false`. -/
def list_delete (s : PmmState) (i addr : Nat) : Option PmmState :=
  if (bucketGet s i).length = 0 then none
  else
    some { s with
      buckets := s.buckets.set i ((bucketGet s i).erase addr)
      log := s.log ++ [ListEvent.del i addr ((bucketGet s i).contains addr)] }

/-! ## `alloc_pages` -/

/-- Iteration core of `findBucket`; the fuel is `BUCKET_COUNT - i`, so
running out of fuel is exactly the loop bound `i < BUCKET_COUNT`
failing. -/
def findBucketGo (s : PmmState) (i : Nat) : Nat → Nat
  | 0 => i
  | n + 1 => if (bucketGet s i).length = 0 then findBucketGo s (i + 1) n else i

/-- The bucket-search loop of `alloc_pages`:
`for (i = order; i < BUCKET_COUNT && list_size(&buckets[i]) == 0; i++);`. -/
def findBucket (s : PmmState) (i : Nat) : Nat := findBucketGo s i (BUCKET_COUNT - i)

/-- Iteration core of `splitBlock`, structurally recursive on
`i - order`. -/
def splitBlockGo (s : PmmState) (blockAddr i : Nat) : Nat → PmmState
  | 0 => s
  | n + 1 =>
    let i' := i - 1
    let buddy := blockAddr + (1 <<< (i' + PAGE_SHIFT))
    splitBlockGo (list_push_head s i' buddy) blockAddr i' n

/-- The split loop of `alloc_pages`: while `i != order`, decrement `i`,
push the right buddy at `free_block + (1 << (i + PAGE_SHIFT))` onto
`buckets[i]`.  (Note the source never stores the buddy's `order` field.) -/
def splitBlock (s : PmmState) (blockAddr i order : Nat) : PmmState :=
  splitBlockGo s blockAddr i (i - order)

/-- Model of `alloc_pages(order)` from `src/mm/pmm.c`.  Returns the block's byte
address (relative to `base_ptr`) and the new state, or `none` on
exhaustion. -/
def alloc_pages (s : PmmState) (order : Nat) : Option (Nat × PmmState) :=
  let i := findBucket s order
  if i = BUCKET_COUNT then none
  else
    match list_pop_head s i with
    | none => none
    | some (addr, s) =>
      let s := splitBlock s addr i order
      let s := { s with bitmap := bitmap_alloc s.bitmap (addr >>> PAGE_SHIFT) (1 <<< order) }
      let s := { s with mem := bzero s.mem addr (1 <<< (order + PAGE_SHIFT)) }
      some (addr, s)

/-! ## `free_pages` -/

/-- The coalescing loop of `free_pages`.  `addr` is the byte address of
`freed_block`, `p` its page number.  Mirrors the source exactly:
`mask = 1 << order`; the buddy pointer is `freed_block ± mask` — the mask
is added to the *byte* address, not shifted by `PAGE_SHIFT`; the buddy's
allocation bit is looked up at the page containing that byte address, and
its `order` field is the 8-byte load at that byte address.  Returns the
state, the final block address and the final order, or `none` when the
assert inside `list_delete` fails and the kernel panics. -/
def coalesce (s : PmmState) (addr p order : Nat) (fuel : Nat) :
    Option (PmmState × Nat × Nat) :=
  match fuel with
  | 0 => some (s, addr, order)
  | fuel + 1 =>
    if order < BUCKET_COUNT then
      let mask := 1 <<< order
      let buddy := if p &&& mask ≠ 0 then addr - mask else addr + mask
      if ALLOCATED s.bitmap (buddy >>> PAGE_SHIFT) || load8 s.mem buddy ≠ order then
        some (s, addr, order)
      else
        match list_delete s order buddy with
        | none => none
        | some s =>
          let addr := if p &&& mask ≠ 0 then buddy else addr
          let p := if p &&& mask ≠ 0 then buddy >>> PAGE_SHIFT else p
          coalesce s addr p (order + 1) fuel
    else some (s, addr, order)

/-- Model of `free_pages(ptr, order)` from `src/mm/pmm.c`.  Also returns the final
order, which is both the value stored into `freed_block->order` and the
index used for the final `list_push_head(&buckets[order], ...)`.
Returns `none` when the call panics inside `list_delete`. -/
def free_pages (s : PmmState) (addr order : Nat) : Option (PmmState × Nat) :=
  let p := addr >>> PAGE_SHIFT
  let s := { s with bitmap := bitmap_free s.bitmap p (1 <<< order) }
  match coalesce s addr p order (BUCKET_COUNT + 1 - order) with
  | none => none
  | some (s, addr, order) =>
    let s := { s with mem := store8 s.mem addr order }
    some (list_push_head s order addr, order)

/-! ## `pmm_init` -/

/-- The inner search of the init peel loop:
`for (i = BUCKET_COUNT - 1; i >= 0 && (1 << i) > range; i--);`. -/
def maxOrderAux : Nat → Nat → Nat
  | 0, _ => 0
  | i + 1, range => if 1 <<< (i + 1) ≤ range then i + 1 else maxOrderAux i range

/-- Largest `i < BUCKET_COUNT` with `2^i ≤ range` (for `range ≥ 1`). -/
def maxOrder (range : Nat) : Nat := maxOrderAux (BUCKET_COUNT - 1) range

/-- Iteration core of `peel`; each pass removes at least one frame from
`range`, so `range` itself is enough fuel. -/
def peelGo (s : PmmState) (min range : Nat) : Nat → PmmState
  | 0 => s
  | n + 1 =>
    if range = 0 then s
    else
      let i := maxOrder range
      let s := { s with mem := store8 s.mem min i }
      let s := list_push_head s i min
      peelGo s (min + (1 <<< (i + PAGE_SHIFT))) (range - (1 <<< i)) n

/-- The peel loop of `pmm_init`: while `range > 0`, take the largest
fitting order, write the block header, push it, advance. -/
def peel (s : PmmState) (min range : Nat) : PmmState := peelGo s min range range

/-- Model of `pmm_init` from `src/mm/pmm.c`, parametrised by the number of bitmap
words (the C sizes the map from `HEAP_SIZE`, which covers at least the
managed range) and the number of managed page frames
`range = (max_ptr - base_ptr) >> PAGE_SHIFT`.  The bitmap starts all-ones
(`memset(map, ~0, size)`), the managed range is freed, the buckets are
initialised empty, and the free range is peeled greedily into blocks. -/
def pmm_init (nwords range : Nat) : PmmState :=
  let s : PmmState :=
    { bitmap := List.replicate nwords (2 ^ 64 - 1)
      buckets := List.replicate BUCKET_COUNT []
      mem := fun _ => 0
      log := [] }
  let s := { s with bitmap := bitmap_free s.bitmap 0 range }
  peel s 0 range

/-! ## Page tables (`src/mm/vmm.c`, `include/mm/vmm.h`)

Page-table nodes live in physical frames; the model keeps the page-table
entries in an association list from `(table frame address, entry index)`
to the 64-bit entry, zero by default (frames handed out by `alloc_pages`
are zeroed). -/

/-- Model of `PTE_V` from `include/mm/vmm.h`. -/
def PTE_V : Nat := 1

/-- Model of `PTE_R` from `include/mm/vmm.h`. -/
def PTE_R : Nat := 2

/-- Model of `PTE_W` from `include/mm/vmm.h`. -/
def PTE_W : Nat := 4

/-- Model of `PTE_SHIFT` from `include/mm/vmm.h`. -/
def PTE_SHIFT : Nat := 10

/-- Model of `OFFSET_SHIFT` from `include/mm/vmm.h`. -/
def OFFSET_SHIFT : Nat := 12

/-- Model of `OFFSET_MASK` from `include/mm/vmm.h`. -/
def OFFSET_MASK : Nat := 0xfff

/-- Model of `PPN_MASK` from `include/mm/vmm.h`. -/
def PPN_MASK : Nat := 0xfffffffffff

/-- Model of `MAX_VADDR = 1L << 38` from `include/mm/vmm.h`. -/
def MAX_VADDR : Nat := 1 <<< 38

/-- Model of `PTE_TO_PADDR(pte)` from `include/mm/vmm.h`. -/
def PTE_TO_PADDR (pte : Nat) : Nat := ((pte >>> PTE_SHIFT) &&& PPN_MASK) <<< OFFSET_SHIFT

/-- Model of `PADDR_TO_PTE(paddr)` from `include/mm/vmm.h`. -/
def PADDR_TO_PTE (paddr : Nat) : Nat := ((paddr >>> OFFSET_SHIFT) &&& PPN_MASK) <<< PTE_SHIFT

/-- Model of `VPN(vaddr, level)` from `include/mm/vmm.h`. -/
def VPN (vaddr level : Nat) : Nat := (vaddr >>> (OFFSET_SHIFT + 9 * level)) &&& 0x1ff

/-- Page-table memory: `(table frame address, entry index) → pte`. -/
def PTMem : Type := List ((Nat × Nat) × Nat)

/-- Read `table[i]`.  Entries never written are zero (invalid). -/
def pteRead (m : PTMem) (t i : Nat) : Nat :=
  ((m.find? (fun e => e.1 == (t, i))).map (fun e => e.2)).getD 0

/-- Write `table[i] = v`. -/
def pteWrite (m : PTMem) (t i v : Nat) : PTMem := ((t, i), v) :: m

/-- The `for (level = 2; level > 0; level--)` body of `__walk` with
`can_alloc = false`: descend through the non-terminal entries, returning
`null` at the first invalid one. -/
def walk_level (m : PTMem) (table vaddr : Nat) : Nat → Option Nat
  | 0 => some table
  | level + 1 =>
    let pte := pteRead m table (VPN vaddr (level + 1))
    if pte &&& PTE_V = 0 then none
    else walk_level m (PTE_TO_PADDR pte) vaddr level

/-- Model of `__walk(table, vaddr, false)` from `src/mm/vmm.c`: the location
`(level-0 table, index)` of the leaf entry, or `none` when an
intermediate entry is invalid.  (The `assert(vaddr < MAX_VADDR)` guard
panics on larger addresses; the claims below only evaluate it on
addresses inside the guard.) -/
def __walk (m : PTMem) (table vaddr : Nat) : Option (Nat × Nat) :=
  if vaddr < MAX_VADDR then
    match walk_level m table vaddr 2 with
    | none => none
    | some t0 => some (t0, VPN vaddr 0)
  else none

/-- Model of `walk(table, vaddr)` from `src/mm/vmm.c`: `0` when `__walk` returns
null, else `PTE_TO_PADDR(*pte) | (vaddr & OFFSET_MASK)`. -/
def walk (m : PTMem) (table vaddr : Nat) : Nat :=
  match __walk m table vaddr with
  | none => 0
  | some (t, i) => PTE_TO_PADDR (pteRead m t i) ||| (vaddr &&& OFFSET_MASK)

/-- Model of `kwalk(vaddr)` from `src/mm/vmm.c`.  The source body is
`walk(pagetable, vaddr);` **with no return statement** although the
declared return type is `paddr_t`; the value the caller observes is
whatever the return register happens to hold (`a0`), modelled by the
explicit `a0` argument. -/
def kwalk (a0 : Nat) (_m : PTMem) (_kpt _vaddr : Nat) : Nat := a0

/-- Model of `unmap_page(table, vaddr)` from `src/mm/vmm.c`: walk without
allocation (`assert(pte != null)` panics, modelled by `none`), then
`*pte = 0;` followed by `free_page((void*)PTE_TO_PADDR(*pte));` — the
`free_page` argument is computed from the **already zeroed** entry.  The
result carries the new page-table memory together with the
`(ptr, order)` argument pair of the `free_pages` call the code makes
into the page allocator. -/
def unmap_page (m : PTMem) (table vaddr : Nat) : Option (PTMem × (Nat × Nat)) :=
  match __walk m table vaddr with
  | none => none
  | some (t, i) =>
    let m := pteWrite m t i 0
    some (m, (PTE_TO_PADDR (pteRead m t i), 0))

/-- Model of `PAGE_ROUND_DOWN` from `include/mm/pmm.h`. -/
def PAGE_ROUND_DOWN (x : Nat) : Nat := (x >>> PAGE_SHIFT) <<< PAGE_SHIFT

/-- The `while (vaddr_start <= vaddr_end)` loop of `unmap`, collecting
the `(ptr, order)` argument of every `free_pages` call made via
`unmap_page`. -/
def unmap_loop (m : PTMem) (table va_start va_end fuel : Nat) :
    Option (PTMem × List (Nat × Nat)) :=
  match fuel with
  | 0 => some (m, [])
  | fuel + 1 =>
    if va_start ≤ va_end then
      match unmap_page m table va_start with
      | none => none
      | some (m, call) =>
        match unmap_loop m table (va_start + PAGE_SIZE) va_end fuel with
        | none => none
        | some (m, calls) => some (m, call :: calls)
    else some (m, [])

/-- Model of `unmap(table, vaddr, n)` from `src/mm/vmm.c`. -/
def unmap (m : PTMem) (table vaddr n : Nat) : Option (PTMem × List (Nat × Nat)) :=
  let va_start := PAGE_ROUND_DOWN vaddr
  let va_end := PAGE_ROUND_DOWN (vaddr + n - 1)
  unmap_loop m table va_start va_end ((va_end - va_start) / PAGE_SIZE + 1)

/-- A concrete three-level table mapping virtual address `0` to the
physical frame at `16384`: root node in frame `4096`, level-1 node in
frame `8192`, level-0 node in frame `12288`. -/
def demo_pt : PTMem :=
  pteWrite
    (pteWrite
      (pteWrite [] 4096 0 (PADDR_TO_PTE 8192 ||| PTE_V))
      8192 0 (PADDR_TO_PTE 12288 ||| PTE_V))
    12288 0 (PADDR_TO_PTE 16384 ||| PTE_V ||| PTE_R ||| PTE_W)

/-! ## Heap allocator (`src/mm/malloc.c`) -/

/-- Model of `MIN_BLOCK_ORDER` from `src/mm/malloc.c`. -/
def MIN_BLOCK_ORDER : Nat := 4

/-- Model of `MAX_BLOCK_ORDER = PAGE_SHIFT - 1` from `src/mm/malloc.c`. -/
def MAX_BLOCK_ORDER : Nat := PAGE_SHIFT - 1

/-- Model of `NUM_BUCKET = MAX_BLOCK_ORDER - MIN_BLOCK_ORDER` from
`src/mm/malloc.c` (seven buckets, block sizes 16..1024). -/
def NUM_BUCKET : Nat := MAX_BLOCK_ORDER - MIN_BLOCK_ORDER

/-- Model of `sizeof(sblock_t)`: `uint64_t magic` (8) + `sblock_type_t type`
(4-byte enum padded to 8) + the two-word union = 32 bytes. -/
def sizeof_sblock : Nat := 32

/-- Model of `CEIL(a, b)` from `include/lib/stdint.h`:
`(a / b) + (a % b > 0)`. -/
def CEIL (a b : Nat) : Nat := a / b + if a % b > 0 then 1 else 0

/-- The counting loop of `page_order`:
`for (order = 0; size; order++) size >>= 1;` — 64 iterations of fuel
suffice for any `uint64_t` value. -/
def page_order_loop (n : Nat) : Nat → Nat
  | 0 => 0
  | f + 1 => if n = 0 then 0 else 1 + page_order_loop (n / 2) f

/-- Model of `page_order(size)` from `include/mm/pmm.h`:
`size = (size - 1) >> PAGE_SHIFT;` then count the shifts until zero.
Its input is a size in **bytes**. -/
def page_order (size : Nat) : Nat := page_order_loop ((size - 1) >>> PAGE_SHIFT) 64

/-- Model of `buckets[i].block_size = 1 << (i + MIN_BLOCK_ORDER)` from
`malloc_init`. -/
def block_size (i : Nat) : Nat := 1 <<< (i + MIN_BLOCK_ORDER)

/-- The bucket-search loop of `malloc`:
`for (i = 0; i < NUM_BUCKET && size >= buckets[i].block_size; i++);`,
structurally recursive on the remaining fuel `NUM_BUCKET - i`. -/
def malloc_bucket_index_loop (size i : Nat) : Nat → Nat
  | 0 => i
  | f + 1 => if size ≥ block_size i then malloc_bucket_index_loop size (i + 1) f else i

/-- The bucket index `malloc(size)` selects; `NUM_BUCKET` means the
request is large and goes down the `UNIBLOCK` path. -/
def malloc_bucket_index (size : Nat) : Nat := malloc_bucket_index_loop size 0 NUM_BUCKET

/-- The `sb_page_order` computed on `malloc`'s large-request path:
`page_order(CEIL(size + sizeof(sblock_t), PAGE_SIZE))` — note the
argument handed to `page_order` is a **page count**, already divided by
`PAGE_SIZE`. -/
def malloc_uniblock_page_order (size : Nat) : Nat :=
  page_order (CEIL (size + sizeof_sblock) PAGE_SIZE)

/-- Superblock header state (`sblock_t`): a `MULTIBLOCK` carries its
bucket back-pointer (index) and `free_blocks` count, a `UNIBLOCK` its
`page_order`. -/
inductive SblockKind where
  | multiblock (bucketIdx free_blocks : Nat)
  | uniblock (page_order : Nat)
deriving DecidableEq, Repr

/-- Heap-allocator state: the underlying page allocator, the per-bucket
free lists of block byte addresses, and the live superblock headers
(address of the page-aligned header, with valid magic). -/
structure HeapState where
  pmm : PmmState
  freeLists : List (List Nat)
  sblocks : List (Nat × SblockKind)

/-- Look up the superblock header at page address `sb`; `none` models a
failed `is_sblock` magic check (which panics). -/
def findSblock (l : List (Nat × SblockKind)) (sb : Nat) : Option SblockKind :=
  ((l.find? (fun e => e.1 == sb)).map (fun e => e.2))

/-- Replace the header stored at `sb`. -/
def setSblock (l : List (Nat × SblockKind)) (sb : Nat) (k : SblockKind) :
    List (Nat × SblockKind) :=
  l.map (fun e => if e.1 == sb then (sb, k) else e)

/-- Model of `blocks_per_sblock` from `src/mm/malloc.c` for a `MULTIBLOCK`:
`(PAGE_SIZE - sizeof(sblock_t)) / block_size`. -/
def blocks_per_sblock (bucketIdx : Nat) : Nat :=
  (PAGE_SIZE - sizeof_sblock) / block_size bucketIdx

/-- Model of `sblock_to_block(sb, i)` from `src/mm/malloc.c`:
`sb + sizeof(sblock_t) + i * block_size`. -/
def sblock_to_block (sb bucketIdx i : Nat) : Nat :=
  sb + sizeof_sblock + i * block_size bucketIdx

/-- Model of `free(ptr)` from `src/mm/malloc.c`.  `ptr = none` is the C null
pointer: `if (ptr == null) return;` — the state is returned untouched.
Otherwise the superblock header is recovered by `PAGE_ROUND_DOWN`; a
missing/corrupt header panics (`none`).  A `UNIBLOCK` hands the run back
via `free_pages(sb, sb->page_order)`.  A `MULTIBLOCK` zeroes the block,
pushes it on the bucket's free list and increments `free_blocks`; when
the superblock becomes fully free all its carved blocks are removed from
the free list and the page is handed back via `free_page(sb)`. -/
def free (h : HeapState) (ptr : Option Nat) : Option HeapState :=
  match ptr with
  | none => some h
  | some p =>
    let sb := PAGE_ROUND_DOWN p
    match findSblock h.sblocks sb with
    | none => none
    | some (SblockKind.uniblock po) =>
      match free_pages h.pmm sb po with
      | none => none
      | some (pmm, _) => some { h with pmm := pmm }
    | some (SblockKind.multiblock bi fb) =>
      let h := { h with pmm := { h.pmm with mem := bzero h.pmm.mem p (block_size bi) } }
      let h := { h with freeLists := h.freeLists.set bi (p :: h.freeLists.getD bi []) }
      let fb := fb + 1
      if fb ≥ blocks_per_sblock bi then
        let carved := (List.range (blocks_per_sblock bi)).map (sblock_to_block sb bi)
        let h := { h with
          freeLists :=
            h.freeLists.set bi (carved.foldl (fun l b => l.erase b) (h.freeLists.getD bi []))
          sblocks := setSblock h.sblocks sb (SblockKind.multiblock bi fb) }
        match free_pages h.pmm sb 0 with
        | none => none
        | some (pmm, _) => some { h with pmm := pmm }
      else
        some { h with sblocks := setSblock h.sblocks sb (SblockKind.multiblock bi fb) }

/-! ## Threads and synchronisation (`src/threads/synch.c`,
`src/threads/thread.c`) -/

/-- A semaphore (`semaphore_t`): the non-negative counter and the waiter
list of blocked threads (identified by tid), head first.  The counter is
a `uint64_t` in the source; its value is bounded by the number of `up`
operations ever performed, so overflow cannot matter and it is modelled
as `Nat`. -/
structure Semaphore where
  value : Nat
  waiters : List Nat
deriving DecidableEq, Repr

/-- Model of `semaphore_up(s)` from `src/threads/synch.c`: inside the
interrupts-off window, if the waiter list is non-empty pop its head and
`thread_unblock` it, then `s->value++`.  Returns the new semaphore state
and the thread that was unblocked, if any. -/
def semaphore_up (s : Semaphore) : Semaphore × Option Nat :=
  match s.waiters with
  | [] => ({ s with value := s.value + 1 }, none)
  | t :: ts => ({ value := s.value + 1, waiters := ts }, some t)

/-- One traversal of the `while (s->value == 0)` body of
`semaphore_down` by thread `current`: if the counter is zero the thread
appends itself to the tail of the waiter list (`list_push_tail`) and
blocks (`true`); otherwise it falls out of the loop and decrements
(`false`). -/
def semaphore_down_step (s : Semaphore) (current : Nat) : Semaphore × Bool :=
  if s.value = 0 then ({ s with waiters := s.waiters ++ [current] }, true)
  else ({ s with value := s.value - 1 }, false)

/-- Model of `alloc_thread(name, p)` from `src/threads/thread.c`: `alloc_page()`;
`if (t == null) return null;` else initialise the thread header in the
page and return it.  The argument is the page returned by the page
allocator (`none` on exhaustion). -/
def alloc_thread (page : Option Nat) : Option Nat :=
  match page with
  | none => none
  | some t => some t

/-- Outcome of `__kthread_create`: either the trap taken when the store
`t->tid = allocate_tid()` dereferences `t = null`, or the initialised
thread and its tid. -/
inductive KResult where
  | crash
  | thread (t : Nat) (tid : Int)
deriving DecidableEq, Repr

/-- Model of `__kthread_create(name, function, arg)` from
`src/threads/thread.c`: `t = alloc_thread(...)` is followed immediately
by `t->tid = allocate_tid();` with no null check, so when the page
allocator is exhausted the store dereferences the null pointer
(`KResult.crash`); otherwise the thread is set up and returned. -/
def __kthread_create (page : Option Nat) (next_tid : Int) : KResult :=
  match alloc_thread page with
  | none => KResult.crash
  | some t => KResult.thread t next_tid

/-- Outcome of `kthread_create`: the returned tid, or the trap
propagated from `__kthread_create`. -/
inductive KtidResult where
  | crash
  | tid (x : Int)
deriving DecidableEq, Repr

/-- Model of `kthread_create(name, function, arg)` from `src/threads/thread.c`.
The source's `if (t == null) return -1;` test sits *after*
`__kthread_create`, which has already stored through `t`; the branch is
therefore unreachable — on exhaustion the crash happens first. -/
def kthread_create (page : Option Nat) (next_tid : Int) : KtidResult :=
  match __kthread_create page next_tid with
  | KResult.crash => KtidResult.crash
  | KResult.thread _t tid => KtidResult.tid tid

/-! ## Concrete states used by the claim theorems -/

/-- Pristine four-frame allocator (one order-2 block), used for C1. -/
def c1_s0 : PmmState := pmm_init 1 4

/-- Pristine 768-frame allocator (three order-8 blocks, at addresses
`0`, `1048576` and `2097152`), used for C2. -/
def c2_s0 : PmmState := pmm_init 13 768

/-- C2 scenario: `alloc_pages 8` pops the order-8 block at `2097152`
(page 512, a left child at order 8, and bucket 8 still holds the two
other free order-8 blocks).  Before freeing it, its owner stores — all
inside its own live allocation — the 8-byte value `8` at offset 256
(where `free_pages` will look for the fabricated buddy's `order` field)
and parks the fabricated node's `prev`/`next` words (offsets 264 and
272) at a scratch address inside the same block, so the unlink's two
stores also land in the freed block's own pages. -/
def c2_s2 : PmmState :=
  let s := ((alloc_pages c2_s0 8).map (fun r => r.2)).getD c2_s0
  let m := store8 s.mem (2097152 + 256) 8
  let m := store8 m (2097152 + 264) (2097152 + 1024)
  let m := store8 m (2097152 + 272) (2097152 + 1024)
  { s with mem := m }

/-- Result of the C2 free: `free_pages(2097152, 8)` on `c2_s2`. -/
def c2_result : Option (PmmState × Nat) := free_pages c2_s2 2097152 8

/-- The bucket-operation log of the C2 free (empty if it panicked). -/
def c2_log : List ListEvent := (c2_result.map (fun r => r.1.log)).getD []

/-- Pristine 33-frame allocator (an order-5 block and a single frame at
page index 32), used for C3. -/
def c3_s0 : PmmState := pmm_init 1 33

/-- Pristine three-frame allocator (an order-1 block at address 0 and an
order-0 block at address 8192) with a 32-page-aligned base (addresses
are offsets from the base, so the base is aligned by construction), used
for C4. -/
def c4_s0 : PmmState := pmm_init 1 3

/-- C4 scenario state after the three order-0 allocations
(`p1 = 8192`, `p2 = 0`, `p3 = 4096`). -/
def c4_s3 : PmmState :=
  let r := ((alloc_pages c4_s0 0).bind (fun r => alloc_pages r.2 0)).bind
    (fun r => alloc_pages r.2 0)
  (r.map (fun x => x.2)).getD c4_s0

/-! ## Claim theorems -/

/-- Claim C1 (evaluation at the failing input).  The claim states that
`free_pages(alloc_pages(k), k)` restores every reachable allocator state
for `0 ≤ k < 9`.  It fails already on the pristine four-frame state at
`k = 1`: `alloc_pages 1` succeeds (splitting the order-2 block and
pushing the right half onto bucket 1), but `free_pages` then finds the
"buddy" at byte address `block + 2` (the source adds `mask = 1 << order`
to the byte address instead of a page offset), reads the stored order
from the freed block's own zeroed bytes, sees `0 ≠ 1`, and gives up
coalescing — leaving bucket 1 holding two blocks and bucket 2 empty
instead of restoring the original single order-2 block. -/
theorem alloc_free_roundtrip_not_restored :
    (alloc_pages c1_s0 1).isSome = true ∧
    ((alloc_pages c1_s0 1).bind (fun r => free_pages r.2 r.1 1)).map
        (fun q => q.1.buckets)
      ≠ some c1_s0.buckets ∧
    ((alloc_pages c1_s0 1).bind (fun r => free_pages r.2 r.1 1)).map
        (fun q => q.1.buckets)
      = some [[], [0, 8192], [], [], [], [], [], [], []] ∧
    c1_s0.buckets = [[], [], [0], [], [], [], [], [], []] := by decide

/-- Claim C2 (evaluation at the failing input).  The claim states that the
coalescing loop of `free_pages` runs only while `order < 8`, so the
final block order is at most 8 and every `buckets[...]` access uses an
index below 9.  The source loops while `order < BUCKET_COUNT = 9`: on
the 768-frame allocator, `alloc_pages 8` pops the block at `2097152`
while bucket 8 still holds two other free blocks; after the owner's
in-allocation writes (`c2_s2`), freeing it finds the fabricated "buddy"
at byte address `2097152 + 256` in the just-cleared page with stored
order 8, so the loop body runs **at order 8**: `list_delete`'s
`assert(list->size > 0)` passes (bucket 8 is non-empty), the unlink
stores land in the freed block via the parked pointers, the order is
incremented to 9, stored into the block header, and the block is pushed
onto `buckets[9]` — one past the end of the 9-entry bucket array. -/
theorem free_pages_reaches_order_nine :
    (alloc_pages c2_s0 8).map (fun r => r.1) = some 2097152 ∧
    (alloc_pages c2_s0 8).map (fun r => bucketGet r.2 8)
      = some [1048576, 0] ∧
    c2_result.map (fun r => r.2) = some 9 ∧
    ListEvent.del 8 (2097152 + 256) false ∈ c2_log ∧
    ListEvent.push 9 2097152 ∈ c2_log := by decide

/-- Claim C3 (evaluation at the failing input).  The claim states that
after `alloc_pages(order)` returns the block with first frame `p`,
exactly the bits `[p, p + 2^order)` are newly set, every other bit is
unchanged, and bit `q` is set iff frame `q` is allocated — including
frames whose offset within a 64-bit bitmap word is ≥ 32.  On the
pristine 33-frame allocator `alloc_pages 0` returns the block at address
`131072` (frame 32, word offset 32), but because the bitmap masks are
built from the 32-bit expression `1 << n` (shift amount taken mod 32,
then sign-extended), the call sets **bit 0** of word 0 instead of bit
32; bit 0 belongs to frame 0, which stays free on bucket 5.  (Init's
`bitmap_free(0, 33)` had already gone wrong the same way, clearing only
bit 0, so the free frame 1 is also marked allocated.) -/
theorem bitmap_alloc_wrong_bit_at_offset32 :
    (alloc_pages c3_s0 0).map (fun r => r.1) = some 131072 ∧
    Nat.testBit (bmGet c3_s0.bitmap 0) 0 = false ∧
    (alloc_pages c3_s0 0).map (fun r => Nat.testBit (bmGet r.2.bitmap 0) 0)
      = some true ∧
    (alloc_pages c3_s0 0).map (fun r => Nat.testBit (bmGet r.2.bitmap 0) 32)
      = some (Nat.testBit (bmGet c3_s0.bitmap 0) 32) ∧
    Nat.testBit (bmGet c3_s0.bitmap 0) 1 = true ∧
    c3_s0.buckets = [[131072], [], [], [], [], [0], [], [], []] := by decide

/-- Claim C4 (evaluation at the failing input).  The claim describes the
three-page scenario: `p1, p2, p3 := alloc_pages 0` three times from the
pristine 3-frame allocator (they are `8192`, `0` and `4096`), then
freeing `p2, p3, p1` should leave `p2` on bucket 0 until `p3` merges
with it.  Instead, already the first call `free_pages(p2, 0)` computes
the "buddy" at byte address `p2 + 1` (the byte-offset bug), finds its
allocation bit clear (it is `p2`'s own just-cleared page) and its stored
order equal to 0 (the page was zeroed at allocation), and so tries to
unlink a fabricated list node from bucket 0 — but bucket 0 is empty at
that point, so `list_delete`'s always-active
`assert(... list->size > 0 ...)` fails and the kernel panics
(`kernel_panic` spins forever).  The claimed merge of `p2` with `p3`
and the claimed final bucket state are never reached. -/
theorem three_page_scenario_panics_at_first_free :
    (alloc_pages c4_s0 0).map (fun r => r.1) = some 8192 ∧
    ((alloc_pages c4_s0 0).bind (fun r => alloc_pages r.2 0)).map (fun r => r.1)
      = some 0 ∧
    (((alloc_pages c4_s0 0).bind (fun r => alloc_pages r.2 0)).bind
      (fun r => alloc_pages r.2 0)).map (fun r => r.1) = some 4096 ∧
    bucketGet c4_s3 0 = [] ∧
    (free_pages c4_s3 0 0).isNone = true := by decide

/-- Claim C5 (evaluation at the failing input).  The claim states that
`unmap(table, va, len)` on a fully mapped range clears each leaf entry
and leaves the page allocator untouched.  The source's `unmap_page`
zeroes the entry and then calls `free_page(PTE_TO_PADDR(*pte))` on the
already-zeroed entry: unmapping the single mapped page of `demo_pt` does
clear the leaf, but it performs one `free_pages(0, 0)` call into the
page allocator (freeing "address 0"), so the allocator state is not left
identical. -/
theorem unmap_calls_free_page_on_zeroed_pte :
    walk demo_pt 4096 0 = 16384 ∧
    (unmap demo_pt 4096 0 4096).map (fun r => r.2) = some [(0, 0)] ∧
    (unmap demo_pt 4096 0 4096).map (fun r => pteRead r.1 12288 0) = some 0 := by
  decide

/-- Claim C6 (evaluation at the failing input).  The claim states that a
large `malloc(n)` allocates `CEIL(n + sizeof(sblock_t), PAGE_SIZE)`
pages with `page_order` the ceiling log2 of that page count — for
`n = PAGE_SIZE * 3`, four pages and `page_order = 2`.  The source feeds
the page *count* `CEIL(...) = 4` into `page_order`, whose body first
divides by `PAGE_SIZE` again (`size = (size - 1) >> PAGE_SHIFT`), so the
computed order is 0 and only `2^0 = 1` page is allocated (and later
freed) for the 3-page request. -/
theorem malloc_large_request_page_order_zero :
    malloc_bucket_index (PAGE_SIZE * 3) = NUM_BUCKET ∧
    CEIL (PAGE_SIZE * 3 + sizeof_sblock) PAGE_SIZE = 4 ∧
    malloc_uniblock_page_order (PAGE_SIZE * 3) = 0 ∧
    1 <<< malloc_uniblock_page_order (PAGE_SIZE * 3) = 1 ∧
    page_order (PAGE_SIZE * 3 + sizeof_sblock) = 2 := by decide

/-- Claim C7 (evaluation at the failing input).  The claim states
`kwalk(vaddr) = walk(KPT, vaddr)`.  The source body of `kwalk` is
`walk(pagetable, vaddr);` with **no `return` statement**, so the value
the caller observes is whatever the return register holds; for a
leftover register value different from `walk`'s result (e.g. one more),
the two disagree — on `demo_pt` at `vaddr = 0`, `walk` yields `16384`
while `kwalk` yields the leftover `16385`. -/
theorem kwalk_unspecified_return_differs_from_walk :
    walk demo_pt 4096 0 = 16384 ∧
    kwalk (walk demo_pt 4096 0 + 1) demo_pt 4096 0 ≠ walk demo_pt 4096 0 := by
  decide

/-- Claim C8: `semaphore_up` increments the counter by exactly one and,
when the waiter list is non-empty, unblocks exactly its head, which is
the oldest blocked thread: `semaphore_down` appends blocking threads at
the tail, `semaphore_up` removes from the head — strict FIFO wake
order. -/
theorem semaphore_up_increments_and_wakes_fifo_head (s : Semaphore) :
    (semaphore_up s).1.value = s.value + 1 ∧
    (semaphore_up s).2 = s.waiters.head? ∧
    (s.waiters ≠ [] → (semaphore_up s).1.waiters = s.waiters.tail) ∧
    (∀ t, s.value = 0 →
      (semaphore_down_step s t).1.waiters = s.waiters ++ [t]) := by
  refine ⟨?_, ?_, ?_, ?_⟩ <;>
    cases h : s.waiters <;>
      simp_all [semaphore_up, semaphore_down_step]

/-- Witness for claim C8 at the concrete semaphore `⟨0, [5, 7]⟩`. -/
theorem semaphore_up_increments_and_wakes_fifo_head_witness :
    (semaphore_up ⟨0, [5, 7]⟩).1.waiters = [5, 7].tail ∧
    (semaphore_down_step ⟨0, [5, 7]⟩ 9).1.waiters = [5, 7] ++ [9] := by
  have h := semaphore_up_increments_and_wakes_fifo_head ⟨0, [5, 7]⟩
  exact ⟨h.2.2.1 (by decide), h.2.2.2 9 (by decide)⟩

/-- Claim C9 (evaluation at the failing input).  The claim states that
when the page allocator is exhausted, `kthread_create` returns `-1`
without dereferencing the null thread pointer.  In the source,
`__kthread_create` stores `t->tid = allocate_tid()` immediately after
`alloc_thread` with no null check, so on exhaustion the null pointer is
dereferenced (a fault) before `kthread_create`'s `if (t == null)
return -1;` line — which is unreachable — could run. -/
theorem kthread_create_crashes_on_exhaustion :
    kthread_create none 7 = KtidResult.crash ∧
    kthread_create none 7 ≠ KtidResult.tid (-1) := by decide

/-- Claim C10: `free(null)` is a no-op: the very first line of `free` is
`if (ptr == null) return;`, so every component of the heap state — the
bucket free lists, the superblocks, and the underlying page-allocator
state — is returned unchanged. -/
theorem free_null_is_noop (h : HeapState) : free h none = some h := rfl

end TinyOS
